import Mathlib

/-!
Verification of the f1-omniverse race simulation core.

Shallow embedding of `src/exts/f1_telemetry.core/f1_telemetry/core/`
(`car.py`, `race.py`, `track.py`).  Python floats are modelled as exact
rationals (`ℚ`); the float value `inf` used for lap-time and gap fields is
modelled by the two-constructor type `FloatVal`.  Python's `x % 1.0`
(result in `[0,1)`) is `Int.fract`; `int(x)` (truncation toward zero) is
`pyInt`.  Randomness (`random.uniform(1, 5)` in collision handling) is
modelled by an explicit draw stream `rng : ℕ → ℚ` together with a cursor.
Presentation-only data (team identity, USD prim paths, the telemetry
manager and USD transform export) carries no simulation state and is
omitted; the corresponding calls are no-ops on the modelled state.
-/

/-- Python float values that may be `float('inf')` (best lap time, gaps). -/
inductive FloatVal where
  | fin (val : ℚ)
  | inf
deriving DecidableEq

/-- Comparison `f < q` for a possibly-infinite float against a rational. -/
def floatLtQ : FloatVal → ℚ → Bool
  | .inf, _ => false
  | .fin p, q => decide (p < q)

/-- Comparison `q < f` for a rational against a possibly-infinite float. -/
def qLtFloat (q : ℚ) : FloatVal → Bool
  | .inf => true
  | .fin p => decide (q < p)

/-- Python `int(x)`: truncation toward zero. -/
def pyInt (q : ℚ) : ℤ :=
  if 0 ≤ q then ⌊q⌋ else -⌊-q⌋

/-- Python truthiness of `Optional[int]`: `None` and `0` are falsy. -/
def optTruthy : Option ℤ → Bool
  | none => false
  | some l => decide (l ≠ 0)

/-- CarState from `car.py`: lifecycle state of one car. -/
inductive CarState where
  | GRID
  | RACING
  | PIT_ENTRY
  | IN_PIT
  | PIT_EXIT
  | DNF
  | FINISHED
deriving DecidableEq

/-- CarTelemetry dataclass from `car.py`. -/
structure CarTelemetry where
  speed : ℚ
  rpm : ℤ
  gear : ℤ
  throttle : ℚ
  brake : ℚ
  drs : Bool
  ers_deployment : ℚ
  tire_wear : ℚ
  fuel_remaining : ℚ
  engine_temp : ℚ
  brake_temp : ℚ
  g_force_lat : ℚ
  g_force_long : ℚ
deriving DecidableEq

/-- Default CarTelemetry field values from `car.py`. -/
def default_telemetry : CarTelemetry :=
  { speed := 0, rpm := 0, gear := 1, throttle := 0, brake := 0, drs := false,
    ers_deployment := 0, tire_wear := 100, fuel_remaining := 100,
    engine_temp := 90, brake_temp := 400, g_force_lat := 0, g_force_long := 0 }

/-- LapTiming dataclass from `car.py`. -/
structure LapTiming where
  current_lap : ℤ
  lap_time : ℚ
  last_lap_time : ℚ
  best_lap_time : FloatVal
  sector_1_time : ℚ
  sector_2_time : ℚ
  sector_3_time : ℚ
  gap_to_leader : FloatVal
  gap_to_ahead : FloatVal
deriving DecidableEq

/-- Default LapTiming field values from `car.py` (`best_lap_time = inf`). -/
def default_timing : LapTiming :=
  { current_lap := 0, lap_time := 0, last_lap_time := 0, best_lap_time := .inf,
    sector_1_time := 0, sector_2_time := 0, sector_3_time := 0,
    gap_to_leader := .fin 0, gap_to_ahead := .fin 0 }

/-- Car from `car.py`.  `track_t` is the private `_track_t` attribute; all
writes in the source go through the `track_t` property setter, modelled by
`Car.set_track_t`.  Team identity and `prim_path` are presentation-only
and omitted. -/
structure Car where
  start_position : ℕ
  position : ℕ
  track_t : ℚ
  state : CarState
  telemetry : CarTelemetry
  timing : LapTiming
  pit_stops_made : ℕ
  pit_stop_timer : ℚ
  target_pit_lap : Option ℤ
  current_speed : ℚ
  target_speed : ℚ
  base_performance : ℚ
  damage : ℚ
deriving DecidableEq

/-- Physics constant MAX_SPEED from `car.py`. -/
def Car.MAX_SPEED : ℚ := 350

/-- Physics constant MIN_SPEED from `car.py`. -/
def Car.MIN_SPEED : ℚ := 80

/-- Physics constant ACCELERATION from `car.py`. -/
def Car.ACCELERATION : ℚ := 0.015

/-- Tire degradation constant TIRE_WEAR_RATE from `car.py`. -/
def Car.TIRE_WEAR_RATE : ℚ := 0.02

/-- Car.__init__ from `car.py`. -/
def car_new (start_position : ℕ) : Car :=
  { start_position := start_position,
    position := start_position,
    track_t := 0,
    state := .GRID,
    telemetry := default_telemetry,
    timing := default_timing,
    pit_stops_made := 0,
    pit_stop_timer := 0,
    target_pit_lap := none,
    current_speed := 0,
    target_speed := 0,
    base_performance := 1 + ((6 - (start_position : ℤ) : ℤ) : ℚ) * 0.01,
    damage := 0 }

/-- Placeholder car used for total list indexing (`List.getD`); Python
would raise `IndexError` where this value is ever produced. -/
def default_car : Car := car_new 1

/-- TrackPoint dataclass from `track.py`. -/
structure TrackPoint where
  x : ℚ
  y : ℚ
  z : ℚ
  bank : ℚ
deriving DecidableEq

/-- Placeholder point for total list indexing; Python would raise
`IndexError`/`ZeroDivisionError` where this value is ever produced. -/
def default_point : TrackPoint := ⟨0, 0, 0, 0⟩

/-- DRSZone dataclass from `track.py`; `stop` models the source field
named `end` (a Lean keyword). -/
structure DRSZone where
  start : ℚ
  stop : ℚ
deriving DecidableEq

/-- DRSZone.contains from `track.py`. -/
def DRSZone.contains (z : DRSZone) (t : ℚ) : Bool :=
  if z.start < z.stop then decide (z.start ≤ t ∧ t ≤ z.stop)
  else decide (t ≥ z.start ∨ t ≤ z.stop)

/-- PitLane dataclass from `track.py`. -/
structure PitLane where
  entry_t : ℚ
  exit_t : ℚ
  pit_stop_duration : ℚ
deriving DecidableEq

/-- Track from `track.py`: loaded geometry (control points, DRS zones,
pit lane).  Load-time scaling and USD generation are not simulation
state and are omitted. -/
structure Track where
  points : List TrackPoint
  drs_zones : List DRSZone
  pit_lane : PitLane
deriving DecidableEq

/-- List indexing `self.points[k]` for an integer index already reduced
mod `n` (hence nonnegative in the source). -/
def Track.point_idx (tr : Track) (k : ℤ) : TrackPoint :=
  tr.points.getD k.toNat default_point

/-- Track._catmull_rom from `track.py`. -/
def Track.catmull_rom (p0 p1 p2 p3 : TrackPoint) (t : ℚ) : ℚ × ℚ × ℚ :=
  let t2 := t * t
  let t3 := t2 * t
  let x := 0.5 * ((2 * p1.x) + (-p0.x + p2.x) * t +
    (2 * p0.x - 5 * p1.x + 4 * p2.x - p3.x) * t2 +
    (-p0.x + 3 * p1.x - 3 * p2.x + p3.x) * t3)
  let y := 0.5 * ((2 * p1.y) + (-p0.y + p2.y) * t +
    (2 * p0.y - 5 * p1.y + 4 * p2.y - p3.y) * t2 +
    (-p0.y + 3 * p1.y - 3 * p2.y + p3.y) * t3)
  let z := 0.5 * ((2 * p1.z) + (-p0.z + p2.z) * t +
    (2 * p0.z - 5 * p1.z + 4 * p2.z - p3.z) * t2 +
    (-p0.z + 3 * p1.z - 3 * p2.z + p3.z) * t3)
  (x, y, z)

/-- Track.get_point_at from `track.py`: wrap `t` to `[0,1)`, pick the
segment and four neighbouring control points, Catmull-Rom interpolate. -/
def Track.get_point_at (tr : Track) (t : ℚ) : ℚ × ℚ × ℚ :=
  let t' := Int.fract t
  let n : ℤ := tr.points.length
  let segment := t' * n
  let i := pyInt segment
  let local_t := segment - i
  let p0 := tr.point_idx ((i - 1) % n)
  let p1 := tr.point_idx (i % n)
  let p2 := tr.point_idx ((i + 1) % n)
  let p3 := tr.point_idx ((i + 2) % n)
  Track.catmull_rom p0 p1 p2 p3 local_t

/-- Track.get_bank_at from `track.py`: linear interpolation of the bank
angles of the two control points bounding the segment. -/
def Track.get_bank_at (tr : Track) (t : ℚ) : ℚ :=
  let t' := Int.fract t
  let n : ℤ := tr.points.length
  let segment := t' * n
  let i := pyInt segment
  let local_t := segment - i
  let bank1 := (tr.point_idx (i % n)).bank
  let bank2 := (tr.point_idx ((i + 1) % n)).bank
  bank1 + (bank2 - bank1) * local_t

/-- Track.is_in_drs_zone from `track.py`. -/
def Track.is_in_drs_zone (tr : Track) (t : ℚ) : Bool :=
  tr.drs_zones.any (fun z => z.contains t)

/-- Car._on_lap_complete from `car.py`. -/
def Car.on_lap_complete (c : Car) : Car :=
  let ti := c.timing
  let best := if qLtFloat ti.lap_time ti.best_lap_time && decide (ti.lap_time > 0)
    then FloatVal.fin ti.lap_time else ti.best_lap_time
  let wear_factor := 1 + c.damage * 0.01
  let tire := max 0 (c.telemetry.tire_wear - Car.TIRE_WEAR_RATE * wear_factor * 100)
  let fuel := max 0 (c.telemetry.fuel_remaining - 2)
  { c with
    timing := { ti with current_lap := ti.current_lap + 1,
                        last_lap_time := ti.lap_time,
                        best_lap_time := best,
                        lap_time := 0 },
    telemetry := { c.telemetry with tire_wear := tire, fuel_remaining := fuel } }

/-- The `track_t` property setter from `car.py`: wrap at 1.0, fire the
lap-completion edge on a wrap from above 0.95 to below 0.05. -/
def Car.set_track_t (c : Car) (value : ℚ) : Car :=
  let old_t := c.track_t
  let c' := { c with track_t := Int.fract value }
  if old_t > 0.95 ∧ c'.track_t < 0.05 then c'.on_lap_complete else c'

/-- Car._update_target_speed from `car.py`. -/
def Car.update_target_speed (c : Car) (tr : Track) : Car :=
  let bank := |tr.get_bank_at c.track_t|
  let ts :=
    if bank > 8 then Car.MIN_SPEED + 50
    else if bank > 5 then Car.MIN_SPEED + 100
    else if bank > 2 then Car.MAX_SPEED - 80
    else Car.MAX_SPEED
  let ts :=
    if tr.is_in_drs_zone c.track_t && c.telemetry.drs
    then min (ts + 20) Car.MAX_SPEED else ts
  { c with target_speed := ts }

/-- Car._update_speed from `car.py`: asymmetric approach to target speed;
the brake value is computed from the already-updated current speed. -/
def Car.update_speed (c : Car) (dt : ℚ) : Car :=
  if c.current_speed < c.target_speed then
    { c with current_speed := min (c.current_speed + 50 * dt) c.target_speed,
             telemetry := { c.telemetry with throttle := 1, brake := 0 } }
  else
    let ns := max (c.current_speed - 100 * dt) c.target_speed
    let brake' := min 1 ((ns - c.target_speed) / 100)
    { c with current_speed := ns,
             telemetry := { c.telemetry with throttle := 0, brake := brake' } }

/-- Car._update_telemetry from `car.py`. -/
def Car.update_telemetry (c : Car) (tr : Track) : Car :=
  let in_drs_zone := tr.is_in_drs_zone c.track_t
  let bank := tr.get_bank_at c.track_t
  { c with telemetry :=
    { c.telemetry with
        speed := c.current_speed,
        rpm := pyInt (8000 + c.current_speed / Car.MAX_SPEED * 7000),
        gear := min 8 (max 1 (pyInt (c.current_speed / 40))),
        drs := in_drs_zone && floatLtQ c.timing.gap_to_ahead 1,
        g_force_lat := bank * 0.3,
        g_force_long := (c.telemetry.throttle - c.telemetry.brake) * 2 } }

/-- Car._should_pit from `car.py`; `optTruthy` models Python truthiness
of the optional `target_pit_lap`. -/
def Car.should_pit (c : Car) (tr : Track) : Bool :=
  if c.state = .PIT_ENTRY then false
  else if optTruthy c.target_pit_lap
      && decide (c.timing.current_lap ≥ c.target_pit_lap.getD 0)
      && decide (|c.track_t - tr.pit_lane.entry_t| < 0.02) then true
  else if decide (c.telemetry.tire_wear < 20)
      && decide (|c.track_t - tr.pit_lane.entry_t| < 0.02) then true
  else false

/-- Car._complete_pit_stop from `car.py`. -/
def Car.complete_pit_stop (c : Car) : Car :=
  { c with state := .PIT_EXIT,
           pit_stops_made := c.pit_stops_made + 1,
           telemetry := { c.telemetry with tire_wear := 100, fuel_remaining := 100 },
           damage := max 0 (c.damage - 20),
           target_pit_lap := none }

/-- Car._update_pit_stop from `car.py`. -/
def Car.update_pit_stop (c : Car) (dt speed_multiplier : ℚ) : Car :=
  let c' := { c with pit_stop_timer := c.pit_stop_timer - dt * speed_multiplier }
  if c'.pit_stop_timer ≤ 0 then c'.complete_pit_stop else c'

/-- Car.update from `car.py`: the per-frame step. -/
def Car.update (c : Car) (dt : ℚ) (tr : Track) (speed_multiplier : ℚ) : Car :=
  if c.state = .DNF ∨ c.state = .FINISHED then c
  else if c.state = .GRID then c
  else if c.state = .IN_PIT then c.update_pit_stop dt speed_multiplier
  else
    let c1 := c.update_target_speed tr
    let c2 := c1.update_speed dt
    let c3 := c2.update_telemetry tr
    let speed_factor := c3.current_speed / Car.MAX_SPEED
    let performance := c3.base_performance * (c3.telemetry.tire_wear / 100)
      * (1 - c3.damage * 0.005)
    let movement := Car.ACCELERATION * speed_factor * performance * dt * speed_multiplier
    let c4 := c3.set_track_t (c3.track_t + movement)
    let c5 := { c4 with timing :=
      { c4.timing with lap_time := c4.timing.lap_time + dt * speed_multiplier } }
    if c5.should_pit tr then { c5 with state := .PIT_ENTRY } else c5

/-- Car._enter_pit from `car.py`. -/
def Car.enter_pit (c : Car) : Car :=
  { c with state := .PIT_ENTRY }

/-- Car.start_pit_stop from `car.py`. -/
def Car.start_pit_stop (c : Car) (duration : ℚ) : Car :=
  { c with state := .IN_PIT, pit_stop_timer := duration }

/-- Car.exit_pit from `car.py`: unconditionally returns to RACING. -/
def Car.exit_pit (c : Car) : Car :=
  { c with state := .RACING }

/-- Car.start_race from `car.py`. -/
def Car.start_race (c : Car) : Car :=
  { c with state := .RACING, current_speed := 0 }

/-- Car.apply_damage from `car.py`: cap at 100, force DNF at 100. -/
def Car.apply_damage (c : Car) (amount : ℚ) : Car :=
  let d := min 100 (c.damage + amount)
  { c with damage := d, state := if d ≥ 100 then .DNF else c.state }

/-- The sort key used by RaceController._update_positions in `race.py`:
`(-current_lap, -track_t if RACING else -1000, state != DNF)`, compared
lexicographically, ascending; the Python bool is modelled as 0/1. -/
def race_key (c : Car) : ℚ × ℚ × ℕ :=
  (-(c.timing.current_lap : ℚ),
   if c.state = .RACING then -c.track_t else -1000,
   if c.state = .DNF then 0 else 1)

/-- Strict lexicographic comparison of sort keys. -/
def key_lt (a b : ℚ × ℚ × ℕ) : Bool :=
  decide (a.1 < b.1) ||
    (decide (a.1 = b.1) &&
      (decide (a.2.1 < b.2.1) ||
        (decide (a.2.1 = b.2.1) && decide (a.2.2 < b.2.2))))

/-- Stable insertion of an index-car pair into an already sorted list:
the pair goes after every element whose key is not strictly greater. -/
def insert_car (p : ℕ × Car) : List (ℕ × Car) → List (ℕ × Car)
  | [] => [p]
  | q :: l => if key_lt (race_key q.2) (race_key p.2)
      then q :: insert_car p l else p :: q :: l

/-- Stable ascending sort by `race_key`, modelling Python's stable
`sorted(self.cars, key=...)` on the enumerated car list (the index
records each car's slot in `self.cars`). -/
def sort_cars : List (ℕ × Car) → List (ℕ × Car)
  | [] => []
  | p :: l => insert_car p (sort_cars l)

/-- The position-assignment loop of RaceController._update_positions:
`car.position = i + 1` along the sorted order, starting at rank `k`. -/
def assign_positions_from (k : ℕ) : List (ℕ × Car) → List (ℕ × Car)
  | [] => []
  | p :: l => (p.1, { p.2 with position := k }) :: assign_positions_from (k + 1) l

/-- Position assignment with 1-based ranks. -/
def assign_positions (l : List (ℕ × Car)) : List (ℕ × Car) :=
  assign_positions_from 1 l

/-- The gap formula of RaceController._update_positions for a non-DNF
car against the car immediately ahead: same lap gives the wrapped
track-position difference times 90, different lap gives the lap
difference times 90. -/
def gap_value (ahead c : Car) : FloatVal :=
  if c.timing.current_lap = ahead.timing.current_lap then
    let gap := ahead.track_t - c.track_t
    let gap := if gap < 0 then gap + 1 else gap
    .fin (gap * 90)
  else
    .fin (((ahead.timing.current_lap - c.timing.current_lap : ℤ) : ℚ) * 90)

/-- One iteration of the gap-assignment loop of
RaceController._update_positions: a DNF car gets infinite gaps, any
other car gets `gap_value` against the car ahead written to both
`gap_to_ahead` and `gap_to_leader`. -/
def gap_entry (ahead c : Car) : Car :=
  if c.state = .DNF then
    { c with timing := { c.timing with gap_to_leader := .inf, gap_to_ahead := .inf } }
  else
    let g := gap_value ahead c
    { c with timing := { c.timing with gap_to_ahead := g, gap_to_leader := g } }

/-- The gap-assignment loop of RaceController._update_positions over
`sorted_cars[1:]`, carrying the (already updated) car ahead. -/
def gap_scan (ahead : Car) : List (ℕ × Car) → List (ℕ × Car)
  | [] => []
  | (i, c) :: rest =>
    let c' := gap_entry ahead c
    (i, c') :: gap_scan c' rest

/-- Default index-car pair for total list indexing. -/
def default_entry : ℕ × Car := (0, default_car)

/-- Gap assignment: the sorted-first car gets `gap_to_leader = 0`
unconditionally, then `gap_scan` handles the rest. -/
def assign_gaps : List (ℕ × Car) → List (ℕ × Car)
  | [] => []
  | (i, leader) :: rest =>
    let leader' := { leader with timing := { leader.timing with gap_to_leader := .fin 0 } }
    (i, leader') :: gap_scan leader' rest

/-- RaceController / RaceConfig state from `race.py` that the claims
touch.  `winner` holds the index (slot in `cars`) of the winning car;
the telemetry manager and USD bindings are external collaborators. -/
structure Race where
  track : Track
  total_laps : ℤ
  cars : List Car
  is_running : Bool
  is_paused : Bool
  race_time : ℚ
  current_lap : ℤ
  speed_multiplier : ℚ
  safety_car_active : Bool
  safety_car_lap : ℤ
  race_finished : Bool
  winner : Option ℕ
deriving DecidableEq

/-- The fully updated standings list of RaceController._update_positions
(Python's local `sorted_cars` after both loops ran), tagged with each
car's slot in `self.cars`. -/
def Race.sorted_standings (r : Race) : List (ℕ × Car) :=
  assign_gaps (assign_positions (sort_cars r.cars.enum))

/-- RaceController._update_positions from `race.py`: positions and gaps
are written through to the cars (in their original slots), and
`current_lap` becomes the leader's lap.  On an empty car list the
source raises `IndexError`; this is modelled as the unchanged race. -/
def Race.update_positions (r : Race) : Race :=
  match r.sorted_standings with
  | [] => r
  | leader :: _ =>
    { r with cars := r.sorted_standings.foldl (fun acc p => acc.set p.1 p.2) r.cars,
             current_lap := leader.2.timing.current_lap }

/-- The wrapped track distance of RaceController._check_collisions:
absolute difference, folded to the shorter arc when above 0.5. -/
def wrapped_dist (c1 c2 : Car) : ℚ :=
  let dist := |c1.track_t - c2.track_t|
  if dist > 0.5 then 1 - dist else dist

/-- One inner-loop iteration of RaceController._check_collisions for the
pair `(i, j)`: `car2`'s state is re-checked, the distance is compared to
the 0.003 threshold, and on a hit one random draw damages both cars. -/
def collide_step (rng : ℕ → ℚ) (i j : ℕ) (s : List Car × ℕ) : List Car × ℕ :=
  let cars := s.1
  let c2 := cars.getD j default_car
  if c2.state = .RACING then
    let c1 := cars.getD i default_car
    if wrapped_dist c1 c2 < 0.003 then
      let damage := rng s.2
      ((cars.set i (c1.apply_damage damage)).set j (c2.apply_damage damage), s.2 + 1)
    else s
  else s

/-- RaceController._check_collisions from `race.py`: `car1`'s state is
checked once per outer iteration (before the inner loop), `car2`'s per
pair; the inner loop runs over `self.cars[i+1:]`. -/
def check_collisions (cars : List Car) (rng : ℕ → ℚ) (k : ℕ) : List Car × ℕ :=
  (List.range cars.length).foldl
    (fun s i =>
      if (s.1.getD i default_car).state = .RACING then
        (List.range' (i + 1) (s.1.length - (i + 1))).foldl
          (fun t j => collide_step rng i j t) s
      else s)
    (cars, k)

/-- The loop body sequence of RaceController._check_race_finish over the
remaining car indices: a RACING car at or past `total_laps` sets the
finished flag and winner (only if not already finished) and becomes
FINISHED. -/
def finish_scan (s : Race) : List ℕ → Race
  | [] => s
  | i :: rest =>
    let c := s.cars.getD i default_car
    if c.timing.current_lap ≥ s.total_laps ∧ c.state = .RACING then
      let s' := if ¬s.race_finished
        then { s with race_finished := true, winner := some i } else s
      finish_scan { s' with cars := s'.cars.set i { c with state := .FINISHED } } rest
    else finish_scan s rest

/-- RaceController._check_race_finish from `race.py`. -/
def Race.check_race_finish (r : Race) : Race :=
  finish_scan r (List.range r.cars.length)

/-- RaceController.update from `race.py`: a frame tick.  The telemetry
export and USD transform update mutate no core state and are omitted;
the random collision damage draws come from `rng` starting at cursor
`k`, and the updated cursor is returned. -/
def Race.update (r : Race) (dt : ℚ) (rng : ℕ → ℚ) (k : ℕ) : Race × ℕ :=
  if !r.is_running || r.is_paused || r.race_finished then (r, k)
  else
    let r1 := { r with race_time := r.race_time + dt * r.speed_multiplier }
    let r2 := { r1 with cars := r1.cars.map (fun (c : Car) => c.update dt r1.track r1.speed_multiplier) }
    let r3 := r2.update_positions
    let p := check_collisions r3.cars rng k
    let r4 := { r3 with cars := p.1 }
    let r5 := r4.check_race_finish
    (r5, p.2)

/-- RaceController.get_car from `race.py`: in-range index gives the car,
anything else gives None. -/
def Race.get_car (r : Race) (index : ℤ) : Option Car :=
  if 0 ≤ index ∧ index < (r.cars.length : ℤ) then r.cars.get? index.toNat
  else none

/-- RaceController.set_speed from `race.py`. -/
def Race.set_speed (r : Race) (speed : ℚ) : Race :=
  { r with speed_multiplier := max 0.1 (min 10 speed) }

/-- A small concrete track (first control points and DRS zones of the
default Pobstone GP data, unscaled) used to instantiate theorems. -/
def sample_track : Track :=
  { points := [⟨0, 0, 0, 0⟩, ⟨50, 1, 5, 0⟩, ⟨100, 2, 3, 0⟩, ⟨150, 2, 0, 0⟩],
    drs_zones := [⟨0.40, 0.48⟩, ⟨0.62, 0.72⟩],
    pit_lane := ⟨0.92, 0.06, 3.5⟩ }

/-- A public car operation the race loop can perform: a frame update or
an `apply_damage` call (the two mutators `RaceController.update`
reaches). -/
inductive CarOp where
  | tick (dt : ℚ) (tr : Track) (mult : ℚ)
  | hit (amount : ℚ)

/-- Run one car operation. -/
def run_car_op (c : Car) : CarOp → Car
  | .tick dt tr mult => c.update dt tr mult
  | .hit a => c.apply_damage a

/-- Damage amounts fed to `apply_damage` are nonnegative (the source
draws them from `random.uniform(1, 5)`). -/
def car_op_ok : CarOp → Prop
  | .tick _ _ _ => True
  | .hit a => 0 ≤ a

/-- The loop condition of RaceController._check_race_finish for car
slot `i` of race state `s`. -/
def finish_qualifies (s : Race) (i : ℕ) : Bool :=
  decide ((s.cars.getD i default_car).timing.current_lap ≥ s.total_laps ∧
    (s.cars.getD i default_car).state = CarState.RACING)

/-- Constant rng stream used to instantiate theorems (every collision
draw is 2, inside the source's uniform(1, 5) range). -/
def rngC : ℕ → ℚ := fun _ => 2

/-- Race fixture builder: a running, unpaused, unfinished race on the
sample track with the given cars. -/
def race_fix (cs : List Car) : Race :=
  { track := sample_track, total_laps := 50, cars := cs,
    is_running := true, is_paused := false, race_time := 0, current_lap := 0,
    speed_multiplier := 0.25, safety_car_active := false, safety_car_lap := 0,
    race_finished := false, winner := none }

/-- Fixture: a DNF car on lap 0 at track position 0.3 with full damage. -/
def carDnfA : Car := { car_new 1 with state := .DNF, track_t := 0.3, damage := 100 }

/-- Fixture: a RACING car on lap 0 at track position 0.5. -/
def carRacB : Car := { car_new 2 with state := .RACING, track_t := 0.5 }

/-- Fixture race: a DNF car and a RACING car on the same lap. -/
def raceC1 : Race := race_fix [carDnfA, carRacB]

/-- Fixture race: a single DNF car. -/
def raceC8 : Race := race_fix [carDnfA]

/-- Fixture: a FINISHED car on lap 2. -/
def carFinF : Car :=
  { car_new 1 with
      state := .FINISHED, timing := { default_timing with current_lap := 2 } }

/-- Fixture: a RACING car on lap 1 moving at 300 km/h. -/
def carRacR : Car :=
  { car_new 2 with
      state := .RACING, track_t := 0.5, current_speed := 300,
      timing := { default_timing with current_lap := 1 } }

/-- Fixture race: finished flag already set, winner recorded, and a car
still RACING below the lap target. -/
def raceDone : Race :=
  { race_fix [carFinF, carRacR] with
      total_laps := 2, race_finished := true, winner := some 0 }

/-- Fixture: two RACING cars that have both reached lap 2. -/
def carW : Car :=
  { car_new 1 with
      state := .RACING, track_t := 0.2,
      timing := { default_timing with current_lap := 2 } }

/-- Fixture: second RACING car at lap 2. -/
def carX : Car :=
  { car_new 2 with
      state := .RACING, track_t := 0.1,
      timing := { default_timing with current_lap := 2 } }

/-- Fixture race: both cars at the finish-lap threshold, flag not set. -/
def raceFin : Race := { race_fix [carW, carX] with total_laps := 2 }

/-- Fixture: a car in IN_PIT with half a second left on the timer. -/
def carPit : Car :=
  { car_new 3 with
      state := .IN_PIT, pit_stop_timer := 0.5, damage := 30,
      target_pit_lap := some 20 }

/-- Fixture: two RACING cars 0.0005 apart on track (within the 0.003
collision threshold). -/
def carP : Car := { car_new 1 with state := .RACING, track_t := 0.3005 }

/-- Fixture: collision partner of `carP`. -/
def carQ : Car := { car_new 2 with state := .RACING, track_t := 0.3 }

/-- Fixture: RACING car at 0.3 (collides with `carL` first in scan
order). -/
def carK : Car := { car_new 1 with state := .RACING, track_t := 0.3 }

/-- Fixture: RACING car at 0.301 carrying 99 damage — one collision
draw pushes it to 100 and DNF mid-scan. -/
def carL : Car :=
  { car_new 2 with state := .RACING, track_t := 0.301, damage := 99 }

/-- Fixture: RACING car at 0.3035 — within the 0.003 threshold of
`carL` but beyond it from `carK`. -/
def carM : Car := { car_new 3 with state := .RACING, track_t := 0.3035 }


/-- Fixture race: a single car still on the GRID. -/
def raceG : Race := race_fix [car_new 1]

/-! Generic list and fold helper lemmas used by the claim proofs. -/

theorem foldl_inv {α β : Type} {f : β → α → β} {P : β → Prop} :
    ∀ (l : List α) (s : β), P s → (∀ b a, a ∈ l → P b → P (f b a)) →
      P (l.foldl f s)
  | [], _, hs, _ => hs
  | a :: l, s, hs, hstep =>
    foldl_inv l (f s a) (hstep s a (List.mem_cons_self a l) hs)
      (fun b x hx hb => hstep b x (List.mem_cons_of_mem a hx) hb)

theorem list_getD_set_ne {α : Type} (d a : α) :
    ∀ (l : List α) (m k : ℕ), m ≠ k → (l.set m a).getD k d = l.getD k d
  | [], _, _, _ => by simp
  | _ :: _, 0, 0, h => absurd rfl h
  | _ :: _, 0, _ + 1, _ => by simp
  | _ :: _, _ + 1, 0, _ => by simp
  | x :: xs, m + 1, k + 1, h => by
    simpa using list_getD_set_ne d a xs m k (by omega)

theorem list_getD_set_self {α : Type} (d a : α) :
    ∀ (l : List α) (m : ℕ), m < l.length → (l.set m a).getD m d = a
  | [], _, h => by simp at h
  | _ :: _, 0, _ => by simp
  | x :: xs, m + 1, h => by
    simpa using list_getD_set_self d a xs m (by simpa using h)

theorem apply_damage_track_t (c : Car) (a : ℚ) :
    (c.apply_damage a).track_t = c.track_t := rfl

theorem wrapped_dist_congr (c1 c2 d1 d2 : Car) (h1 : c1.track_t = d1.track_t)
    (h2 : c2.track_t = d2.track_t) : wrapped_dist c1 c2 = wrapped_dist d1 d2 := by
  simp only [wrapped_dist, h1, h2]

theorem wrapped_dist_comm (c1 c2 : Car) : wrapped_dist c1 c2 = wrapped_dist c2 c1 := by
  simp only [wrapped_dist, abs_sub_comm]

/-- C6: the closed-loop spline is periodic with period 1 — for every
rational `t` and every loaded track, `Track.get_point_at t` equals
`Track.get_point_at (t + 1)`. -/
theorem c6_get_point_at_periodic (tr : Track) (t : ℚ) :
    tr.get_point_at t = tr.get_point_at (t + 1) := by
  unfold Track.get_point_at
  rw [Int.fract_add_one]

/-- C10: `RaceController.get_car` returns the car at the index for
`0 ≤ index < len(cars)` and `None` for every other integer index
(including negatives); it is total (never raises). -/
theorem c10_get_car (r : Race) (index : ℤ) :
    (0 ≤ index → index < (r.cars.length : ℤ) →
      r.get_car index = some (r.cars.getD index.toNat default_car)) ∧
    ((index < 0 ∨ (r.cars.length : ℤ) ≤ index) → r.get_car index = none) := by
  constructor
  · intro h1 h2
    have hn : index.toNat < r.cars.length := by omega
    have hx : r.cars[index.toNat]? = some r.cars[index.toNat] :=
      List.getElem?_eq_getElem hn
    simp [Race.get_car, h1, h2, List.get?_eq_getElem?, hx,
      List.getD_eq_getElem?_getD]
  · intro h
    have hneg : ¬(0 ≤ index ∧ index < (r.cars.length : ℤ)) := by omega
    simp [Race.get_car, hneg]

/-- C10 witness: in a two-car race, index 0 yields the first car and
indices -5 and 2 yield None. -/
theorem c10_get_car_witness :
    raceC1.get_car 0 = some (raceC1.cars.getD (0 : ℤ).toNat default_car) ∧
    raceC1.get_car (-5) = none ∧ raceC1.get_car 2 = none :=
  ⟨(c10_get_car raceC1 0).1 (by norm_num) (by norm_num [raceC1, race_fix]),
   (c10_get_car raceC1 (-5)).2 (Or.inl (by norm_num)),
   (c10_get_car raceC1 2).2 (Or.inr (by norm_num [raceC1, race_fix]))⟩

/-- C1, evaluation at the failing input: with a DNF car and a RACING car
on the same lap, `_update_positions` ranks the DNF car first (position
1) and the RACING car last (position 2), so DNF cars are not forced to
the back as the claim (and the source's own `# DNF at back` comment)
state. -/
theorem c1_standings_eval :
    (raceC1.cars.getD 0 default_car).timing.current_lap =
      (raceC1.cars.getD 1 default_car).timing.current_lap ∧
    ((raceC1.update_positions).cars.getD 0 default_car).state = CarState.DNF ∧
    ((raceC1.update_positions).cars.getD 0 default_car).position = 1 ∧
    ((raceC1.update_positions).cars.getD 1 default_car).state = CarState.RACING ∧
    ((raceC1.update_positions).cars.getD 1 default_car).position = 2 := by
  norm_num +decide [Race.update_positions, Race.sorted_standings, sort_cars,
    insert_car, race_key, key_lt, assign_positions, assign_positions_from,
    assign_gaps, gap_scan, gap_entry, gap_value, raceC1, race_fix, carDnfA, carRacB,
    car_new, default_timing, default_telemetry, sample_track, List.enum,
    List.enumFrom, List.foldl, List.set, default_car]

/-- C8 counterexample: a race whose only car is DNF — after the
standings recomputation that DNF car (the sorted leader) has
`gap_to_leader = 0.0`, not infinity. -/
theorem c8_counterexample :
    (raceC8.cars.getD 0 default_car).state = CarState.DNF ∧
    ((raceC8.update_positions).cars.getD 0 default_car).timing.gap_to_leader =
      FloatVal.fin 0 ∧
    FloatVal.fin 0 ≠ FloatVal.inf := by
  refine ⟨by norm_num +decide [raceC8, race_fix, carDnfA, car_new], ?_, by simp⟩
  norm_num +decide [Race.update_positions, Race.sorted_standings, sort_cars,
    insert_car, race_key, key_lt, assign_positions, assign_positions_from,
    assign_gaps, gap_scan, gap_entry, gap_value, raceC8, race_fix, carDnfA,
    car_new, default_timing, default_telemetry, sample_track, List.enum,
    List.enumFrom, List.foldl, List.set, default_car]

/-- C4 counterexample: `exit_pit` called on a car that reached 100
damage and DNF unconditionally returns it to RACING, so DNF is not
permanent under all public operations. -/
theorem c4_counterexample :
    carDnfA.damage = 100 ∧ carDnfA.state = CarState.DNF ∧
    (carDnfA.exit_pit).state = CarState.RACING := by
  refine ⟨by norm_num [carDnfA, car_new], by norm_num [carDnfA, car_new], ?_⟩
  simp [Car.exit_pit]

theorem update_positions_race_time (r : Race) :
    (r.update_positions).race_time = r.race_time := by
  cases h : r.sorted_standings <;> simp [Race.update_positions, h]

theorem finish_scan_race_time : ∀ (is : List ℕ) (s : Race),
    (finish_scan s is).race_time = s.race_time := by
  intro is
  induction is with
  | nil => intro s; rfl
  | cons i rest ih =>
    intro s
    simp only [finish_scan]
    split
    · rw [ih]
      split <;> rfl
    · exact ih s

theorem finish_scan_finished : ∀ (is : List ℕ) (s : Race),
    s.race_finished = true →
    (finish_scan s is).race_finished = true ∧ (finish_scan s is).winner = s.winner := by
  intro is
  induction is with
  | nil => intro s h; exact ⟨h, rfl⟩
  | cons i rest ih =>
    intro s h
    simp only [finish_scan, h]
    split
    · exact ih _ h
    · exact ih s h

theorem finish_scan_keeps_finished_car : ∀ (is : List ℕ) (s : Race) (i₀ : ℕ),
    (s.cars.getD i₀ default_car).state = CarState.FINISHED →
    ((finish_scan s is).cars.getD i₀ default_car).state = CarState.FINISHED := by
  intro is
  induction is with
  | nil => intro s i₀ h; exact h
  | cons i rest ih =>
    intro s i₀ h
    simp only [finish_scan]
    split
    · rename_i hcond
      by_cases hii : i = i₀
      · subst hii
        rw [h] at hcond
        exact absurd hcond.2 (by simp)
      · apply ih
        show (((if ¬s.race_finished = true then
              { s with race_finished := true, winner := some i } else s).cars.set i
              { s.cars.getD i default_car with state := CarState.FINISHED }).getD i₀
              default_car).state = CarState.FINISHED
        have hc : (if ¬s.race_finished = true then
            { s with race_finished := true, winner := some i } else s).cars = s.cars := by
          split <;> rfl
        rw [hc, list_getD_set_ne default_car _ s.cars i i₀ hii]
        exact h
    · exact ih s i₀ h

theorem finish_scan_none : ∀ (is : List ℕ) (s : Race),
    (∀ i ∈ is, finish_qualifies s i = false) → finish_scan s is = s := by
  intro is
  induction is with
  | nil => intro s _; rfl
  | cons i rest ih =>
    intro s hall
    simp only [finish_scan]
    rw [if_neg]
    · exact ih s (fun j hj => hall j (List.mem_cons_of_mem i hj))
    · intro hp
      have h1 := hall i (List.mem_cons_self i rest)
      rw [finish_qualifies, decide_eq_true hp] at h1
      exact Bool.noConfusion h1
theorem finish_scan_find : ∀ (is : List ℕ) (s : Race),
    s.race_finished = false → ∀ i₀ : ℕ,
    is.find? (finish_qualifies s) = some i₀ → i₀ < s.cars.length →
    (finish_scan s is).race_finished = true ∧
    (finish_scan s is).winner = some i₀ ∧
    ((finish_scan s is).cars.getD i₀ default_car).state = CarState.FINISHED := by
  intro is
  induction is with
  | nil => intro s _ i₀ hf _; simp at hf
  | cons i rest ih =>
    intro s hs i₀ hf hlen
    by_cases hq : finish_qualifies s i = true
    · rw [List.find?_cons_of_pos _ hq] at hf
      have hi : i = i₀ := by injection hf
      subst hi
      simp only [finish_scan, hs]
      rw [if_pos (of_decide_eq_true hq), if_pos (by simp)]
      refine ⟨(finish_scan_finished rest _ rfl).1, (finish_scan_finished rest _ rfl).2, ?_⟩
      apply finish_scan_keeps_finished_car
      show (((s.cars.set i { s.cars.getD i default_car with
          state := CarState.FINISHED }).getD i default_car)).state = CarState.FINISHED
      rw [list_getD_set_self default_car _ s.cars i hlen]
    · rw [List.find?_cons_of_neg _ hq] at hf
      simp only [finish_scan]
      rw [if_neg (fun hp => hq (decide_eq_true hp))]
      exact ih s hs i₀ hf hlen
theorem finish_qualifies_invariant (s2 s : Race) (i₀ : ℕ)
    (hc : s2.cars.getD i₀ default_car = s.cars.getD i₀ default_car)
    (ht : s2.total_laps = s.total_laps) :
    finish_qualifies s2 i₀ = finish_qualifies s i₀ := by
  simp only [finish_qualifies, hc, ht]

theorem finish_scan_qualifying : ∀ (is : List ℕ) (s : Race) (i₀ : ℕ),
    i₀ ∈ is → i₀ < s.cars.length → finish_qualifies s i₀ = true →
    ((finish_scan s is).cars.getD i₀ default_car).state = CarState.FINISHED := by
  intro is
  induction is with
  | nil => intro s i₀ h _ _; simp at h
  | cons i rest ih =>
    intro s i₀ hmem hlen hq
    have hc : (if ¬s.race_finished = true
        then { s with race_finished := true, winner := some i } else s).cars
          = s.cars := by
      split <;> rfl
    by_cases hii : i = i₀
    · subst hii
      simp only [finish_scan]
      rw [if_pos (of_decide_eq_true hq)]
      apply finish_scan_keeps_finished_car
      show (((if ¬s.race_finished = true then
            { s with race_finished := true, winner := some i } else s).cars.set i
            { s.cars.getD i default_car with state := CarState.FINISHED }).getD i
            default_car).state = CarState.FINISHED
      rw [hc, list_getD_set_self default_car _ s.cars i hlen]
    · have hmem' : i₀ ∈ rest := by
        rcases List.mem_cons.mp hmem with h | h
        · exact absurd h.symm hii
        · exact h
      simp only [finish_scan]
      split
      · refine ih _ i₀ hmem' ?_ ?_
        · show i₀ < ((if ¬s.race_finished = true then
              { s with race_finished := true, winner := some i } else s).cars.set i
              { s.cars.getD i default_car with state := CarState.FINISHED }).length
          rw [hc, List.length_set]
          exact hlen
        · refine (finish_qualifies_invariant _ s i₀ ?_ ?_).trans hq
          · show ((if ¬s.race_finished = true then
                { s with race_finished := true, winner := some i } else s).cars.set i
                { s.cars.getD i default_car with state := CarState.FINISHED }).getD i₀
                default_car = s.cars.getD i₀ default_car
            rw [hc, list_getD_set_ne default_car _ s.cars i i₀ hii]
          · show (if ¬s.race_finished = true then
                { s with race_finished := true, winner := some i } else s).total_laps
              = s.total_laps
            split <;> rfl
      · exact ih s i₀ hmem' hlen hq

/-- C2, amended: when `_check_race_finish` runs on an unfinished race, the
first (lowest-index) RACING car at or past `total_laps` is recorded as
winner, the finished flag is set, and every qualifying RACING car (not
just the winner) becomes FINISHED in that same pass; when the flag is
already set the winner is never overwritten and the flag stays set; if
no car qualifies nothing changes; but once the finished flag is set,
`update` is a complete no-op, so other cars are NOT updated further on
subsequent ticks. -/
theorem c2_finish_behavior (r : Race) :
    (r.race_finished = true → ∀ (dt : ℚ) (rng : ℕ → ℚ) (k : ℕ),
      r.update dt rng k = (r, k)) ∧
    (r.race_finished = true →
      (r.check_race_finish).race_finished = true ∧
      (r.check_race_finish).winner = r.winner) ∧
    (r.race_finished = false → ∀ i₀ : ℕ,
      (List.range r.cars.length).find? (finish_qualifies r) = some i₀ →
      (r.check_race_finish).race_finished = true ∧
      (r.check_race_finish).winner = some i₀ ∧
      ((r.check_race_finish).cars.getD i₀ default_car).state = CarState.FINISHED) ∧
    (r.race_finished = false →
      (List.range r.cars.length).find? (finish_qualifies r) = none →
      r.check_race_finish = r) ∧
    (∀ i : ℕ, i < r.cars.length → finish_qualifies r i = true →
      ((r.check_race_finish).cars.getD i default_car).state = CarState.FINISHED) := by
  refine ⟨?_, ?_, ?_, ?_, ?_⟩
  · intro h dt rng k
    simp [Race.update, h]
  · intro h
    exact finish_scan_finished _ r h
  · intro h i₀ hf
    have hmem : i₀ ∈ List.range r.cars.length := List.mem_of_find?_eq_some hf
    exact finish_scan_find _ r h i₀ hf (List.mem_range.mp hmem)
  · intro h hf
    apply finish_scan_none
    intro i hi
    have hni := List.find?_eq_none.mp hf i hi
    simpa using hni
  · intro i hlen hq
    exact finish_scan_qualifying _ r i (List.mem_range.mpr hlen) hlen hq

/-- C2 witness: a finished race is inert under `update`, and on a race
with two qualifying RACING cars `_check_race_finish` records car 0 as
winner and marks both car 0 and car 1 FINISHED. -/
theorem c2_finish_behavior_witness :
    raceDone.update 1 rngC 0 = (raceDone, 0) ∧
    (raceFin.check_race_finish).race_finished = true ∧
    (raceFin.check_race_finish).winner = some 0 ∧
    ((raceFin.check_race_finish).cars.getD 0 default_car).state = CarState.FINISHED ∧
    ((raceFin.check_race_finish).cars.getD 1 default_car).state = CarState.FINISHED := by
  have h2 := (c2_finish_behavior raceFin).2.2.1 rfl 0 (by decide)
  have h3 := (c2_finish_behavior raceFin).2.2.2.2 1 (by decide) (by decide)
  exact ⟨(c2_finish_behavior raceDone).1 rfl 1 rngC 0, h2.1, h2.2.1, h2.2.2, h3⟩
/-- C2 counterexample: once the race-level finished flag is set, a full
`update` tick returns the race completely unchanged even though a car
is still RACING below the lap target — other cars do not continue to
be updated on subsequent ticks. -/
theorem c2_counterexample :
    raceDone.race_finished = true ∧
    (raceDone.cars.getD 1 default_car).state = CarState.RACING ∧
    (raceDone.cars.getD 1 default_car).timing.current_lap < raceDone.total_laps ∧
    raceDone.update 1 rngC 0 = (raceDone, 0) := by
  refine ⟨rfl, by decide, by decide, ?_⟩
  simp [Race.update, raceDone, race_fix]

/-- C3, amended: `update` has no special handling for `dt ≤ 0` — on a
running, unpaused, unfinished race the tick always executes and the
race clock always becomes `race_time + dt * speed_multiplier` (which
moves backwards for `dt < 0`), so a `dt ≤ 0` frame is not a no-op. -/
theorem c3_no_dt_guard (r : Race) (dt : ℚ) (rng : ℕ → ℚ) (k : ℕ)
    (h1 : r.is_running = true) (h2 : r.is_paused = false)
    (h3 : r.race_finished = false) :
    ((r.update dt rng k).1).race_time = r.race_time + dt * r.speed_multiplier := by
  simp only [Race.update, Race.check_race_finish, h1, h2, h3, Bool.not_true,
    Bool.false_or, Bool.or_false, Bool.or_self, Bool.false_eq_true, if_false]
  rw [finish_scan_race_time]
  rw [update_positions_race_time]

/-- C3 witness: applying the amended theorem at `dt = -1` on a concrete
running race. -/
theorem c3_no_dt_guard_witness :
    ((raceG.update (-1) rngC 0).1).race_time =
      raceG.race_time + (-1) * raceG.speed_multiplier :=
  c3_no_dt_guard raceG (-1) rngC 0 rfl rfl rfl
/-- C3 counterexample: an update with `dt = -1 ≤ 0` on a running race is
not a no-op — the race-level clock changes (it runs backwards). -/
theorem c3_counterexample :
    (-1 : ℚ) ≤ 0 ∧ (raceG.update (-1) rngC 0).1.race_time ≠ raceG.race_time := by
  constructor
  · norm_num
  · have h : ((raceG.update (-1) rngC 0).1).race_time =
        raceG.race_time + (-1) * raceG.speed_multiplier := by
      simp only [Race.update, Race.check_race_finish, raceG, race_fix, Bool.not_true,
        Bool.false_or, Bool.or_false, Bool.false_eq_true, if_false]
      rw [finish_scan_race_time, update_positions_race_time]
    rw [h]
    norm_num [raceG, race_fix]
theorem update_pit_stop_track_t (c : Car) (dt mult : ℚ) :
    (c.update_pit_stop dt mult).track_t = c.track_t := by
  simp only [Car.update_pit_stop, Car.complete_pit_stop]
  split <;> rfl

theorem update_pit_stop_damage (c : Car) (dt mult : ℚ) :
    (c.update_pit_stop dt mult).damage = c.damage ∨
    (c.update_pit_stop dt mult).damage = max 0 (c.damage - 20) := by
  simp only [Car.update_pit_stop, Car.complete_pit_stop]
  split
  · right; rfl
  · left; rfl

theorem set_track_t_damage (c : Car) (v : ℚ) :
    (c.set_track_t v).damage = c.damage := by
  simp only [Car.set_track_t, Car.on_lap_complete]
  split <;> rfl

theorem set_track_t_bounds (c : Car) (v : ℚ) :
    0 ≤ (c.set_track_t v).track_t ∧ (c.set_track_t v).track_t < 1 := by
  simp only [Car.set_track_t]
  split
  · exact ⟨Int.fract_nonneg v, Int.fract_lt_one v⟩
  · exact ⟨Int.fract_nonneg v, Int.fract_lt_one v⟩

theorem update_target_speed_damage (c : Car) (tr : Track) :
    (c.update_target_speed tr).damage = c.damage := rfl

theorem update_speed_damage (c : Car) (dt : ℚ) :
    (c.update_speed dt).damage = c.damage := by
  simp only [Car.update_speed]
  split <;> rfl

theorem update_telemetry_damage (c : Car) (tr : Track) :
    (c.update_telemetry tr).damage = c.damage := rfl

theorem car_update_damage (c : Car) (dt : ℚ) (tr : Track) (mult : ℚ) :
    (c.update dt tr mult).damage = c.damage ∨
    (c.update dt tr mult).damage = max 0 (c.damage - 20) := by
  simp only [Car.update]
  split
  · left; rfl
  · split
    · left; rfl
    · split
      · exact update_pit_stop_damage c dt mult
      · split <;>
          (left
           simp only [set_track_t_damage, update_telemetry_damage,
             update_speed_damage, update_target_speed_damage])
theorem car_update_dnf (c : Car) (dt : ℚ) (tr : Track) (mult : ℚ)
    (h : c.state = CarState.DNF) : c.update dt tr mult = c := by
  simp only [Car.update]
  rw [if_pos (Or.inl h)]

theorem apply_damage_dnf (c : Car) (a : ℚ) (h : c.state = CarState.DNF) :
    (c.apply_damage a).state = CarState.DNF := by
  simp only [Car.apply_damage]
  split
  · rfl
  · exact h

/-- C4, amended: over any sequence of race-loop operations (frame
updates and `apply_damage` with nonnegative amounts) damage stays within
[0, 100] and a DNF car stays DNF; `apply_damage` caps damage at
`min 100 (damage + amount)` and forces DNF once the result reaches 100;
but `exit_pit` (and `start_race`) unconditionally set RACING, so DNF is
not permanent under those two public operations. -/
theorem c4_damage_invariant (ops : List CarOp) (c : Car)
    (h0 : 0 ≤ c.damage) (h1 : c.damage ≤ 100)
    (hops : ∀ op ∈ ops, car_op_ok op) :
    (0 ≤ (ops.foldl run_car_op c).damage ∧
      (ops.foldl run_car_op c).damage ≤ 100) ∧
    (c.state = CarState.DNF → (ops.foldl run_car_op c).state = CarState.DNF) ∧
    (∀ a : ℚ, (c.apply_damage a).damage = min 100 (c.damage + a)) ∧
    (∀ a : ℚ, 100 ≤ (c.apply_damage a).damage →
      (c.apply_damage a).state = CarState.DNF) := by
  have hmain : (0 ≤ (ops.foldl run_car_op c).damage ∧
      (ops.foldl run_car_op c).damage ≤ 100) ∧
      (c.state = CarState.DNF → (ops.foldl run_car_op c).state = CarState.DNF) := by
    have := foldl_inv (f := run_car_op)
      (P := fun a => (0 ≤ a.damage ∧ a.damage ≤ 100) ∧
        (c.state = CarState.DNF → a.state = CarState.DNF))
      ops c ⟨⟨h0, h1⟩, fun h => h⟩ ?_
    · exact ⟨this.1, this.2⟩
    · intro b op hop hb
      have hok := hops op hop
      cases op with
      | tick dt tr mult =>
        simp only [run_car_op]
        constructor
        · rcases car_update_damage b dt tr mult with hd | hd <;> rw [hd]
          · exact hb.1
          · constructor
            · exact le_max_left 0 _
            · exact max_le (by norm_num) (by linarith [hb.1.2])
        · intro hdnf
          rw [car_update_dnf b dt tr mult (hb.2 hdnf)]
          exact hb.2 hdnf
      | hit a =>
        simp only [run_car_op]
        constructor
        · constructor
          · show 0 ≤ min 100 (b.damage + a)
            exact le_min (by norm_num) (by linarith [hb.1.1, show (0:ℚ) ≤ a from hok])
          · exact min_le_left 100 _
        · intro hdnf
          exact apply_damage_dnf b a (hb.2 hdnf)
  refine ⟨hmain.1, hmain.2, fun a => rfl, fun a ha => ?_⟩
  simp only [Car.apply_damage]
  rw [if_pos]
  exact ha
/-- C4 witness: the amended invariant applied to a fresh car hit for 50,
ticked one frame, then hit for 60. -/
theorem c4_damage_invariant_witness :
    (0 ≤ ([CarOp.hit 50, CarOp.tick 1 sample_track 1, CarOp.hit 60].foldl
        run_car_op (car_new 1)).damage ∧
      ([CarOp.hit 50, CarOp.tick 1 sample_track 1, CarOp.hit 60].foldl
        run_car_op (car_new 1)).damage ≤ 100) ∧
    ((car_new 1).state = CarState.DNF →
      ([CarOp.hit 50, CarOp.tick 1 sample_track 1, CarOp.hit 60].foldl
        run_car_op (car_new 1)).state = CarState.DNF) ∧
    (∀ a : ℚ, ((car_new 1).apply_damage a).damage =
      min 100 ((car_new 1).damage + a)) ∧
    (∀ a : ℚ, 100 ≤ ((car_new 1).apply_damage a).damage →
      ((car_new 1).apply_damage a).state = CarState.DNF) :=
  c4_damage_invariant [CarOp.hit 50, CarOp.tick 1 sample_track 1, CarOp.hit 60]
    (car_new 1) (by norm_num [car_new]) (by norm_num [car_new])
    (by
      intro op hop
      simp only [List.mem_cons, List.not_mem_nil, or_false] at hop
      rcases hop with rfl | rfl | rfl <;> simp [car_op_ok])

theorem car_update_track_bounds (c : Car) (dt : ℚ) (tr : Track) (mult : ℚ)
    (h0 : 0 ≤ c.track_t) (h1 : c.track_t < 1) :
    0 ≤ (c.update dt tr mult).track_t ∧ (c.update dt tr mult).track_t < 1 := by
  simp only [Car.update]
  split
  · exact ⟨h0, h1⟩
  · split
    · exact ⟨h0, h1⟩
    · split
      · rw [update_pit_stop_track_t]; exact ⟨h0, h1⟩
      · split <;> exact set_track_t_bounds _ _

/-- C5: `trackPosition` stays in [0, 1) across any sequence of `update`
calls (any dt, any speed multiplier, any lifecycle state), given the
constructor's in-range starting position. -/
theorem c5_track_position_bounds (ticks : List (ℚ × ℚ)) (tr : Track) (c : Car)
    (h0 : 0 ≤ c.track_t) (h1 : c.track_t < 1) :
    0 ≤ (ticks.foldl (fun a p => a.update p.1 tr p.2) c).track_t ∧
    (ticks.foldl (fun a p => a.update p.1 tr p.2) c).track_t < 1 := by
  refine foldl_inv (P := fun a => 0 ≤ a.track_t ∧ a.track_t < 1)
    ticks c ⟨h0, h1⟩ ?_
  intro b p _ hb
  exact car_update_track_bounds b p.1 tr p.2 hb.1 hb.2

/-- C5 witness: two concrete ticks (one with a large dt, one with a
negative dt) on a fresh car keep `track_t` in [0, 1). -/
theorem c5_track_position_bounds_witness :
    0 ≤ ([((1 : ℚ), (1 : ℚ)), (-1/2, 2)].foldl
      (fun a p => a.update p.1 sample_track p.2) (car_new 1)).track_t ∧
    ([((1 : ℚ), (1 : ℚ)), (-1/2, 2)].foldl
      (fun a p => a.update p.1 sample_track p.2) (car_new 1)).track_t < 1 :=
  c5_track_position_bounds [(1, 1), (-1/2, 2)] sample_track (car_new 1)
    (by norm_num [car_new]) (by norm_num [car_new])
/-- C7: while IN_PIT, `update` only decrements `pit_stop_timer` by
`dt * speed_multiplier`; when the decremented timer reaches ≤ 0 the
exact pit-stop-completion effects occur: tires 100, fuel 100, damage
reduced by 20 with floor 0, `target_pit_lap` cleared, `pit_stops_made`
incremented, state PIT_EXIT — and nothing else changes. -/
theorem c7_in_pit_update (c : Car) (dt mult : ℚ) (tr : Track)
    (h : c.state = CarState.IN_PIT) :
    (c.pit_stop_timer - dt * mult ≤ 0 →
      c.update dt tr mult =
        { c with pit_stop_timer := c.pit_stop_timer - dt * mult,
                 state := CarState.PIT_EXIT,
                 pit_stops_made := c.pit_stops_made + 1,
                 telemetry := { c.telemetry with
                                  tire_wear := 100, fuel_remaining := 100 },
                 damage := max 0 (c.damage - 20),
                 target_pit_lap := none }) ∧
    (0 < c.pit_stop_timer - dt * mult →
      c.update dt tr mult = { c with pit_stop_timer := c.pit_stop_timer - dt * mult }) := by
  have hupd : c.update dt tr mult = c.update_pit_stop dt mult := by
    simp [Car.update, h]
  rw [hupd]
  simp only [Car.update_pit_stop, Car.complete_pit_stop]
  constructor
  · intro hle
    rw [if_pos hle]
  · intro hlt
    rw [if_neg (not_le.mpr hlt)]

/-- C7 witness: the theorem applied to a concrete car with 0.5 s left on
the timer, in both the expiring (dt = 1) and non-expiring (dt = 0.1)
cases. -/
theorem c7_in_pit_update_witness :
    carPit.update 1 sample_track 1 =
      { carPit with pit_stop_timer := carPit.pit_stop_timer - 1 * 1,
                    state := CarState.PIT_EXIT,
                    pit_stops_made := carPit.pit_stops_made + 1,
                    telemetry := { carPit.telemetry with
                                     tire_wear := 100, fuel_remaining := 100 },
                    damage := max 0 (carPit.damage - 20),
                    target_pit_lap := none } ∧
    carPit.update 0.1 sample_track 1 =
      { carPit with pit_stop_timer := carPit.pit_stop_timer - 0.1 * 1 } :=
  ⟨(c7_in_pit_update carPit 1 1 sample_track rfl).1 (by norm_num [carPit, car_new]),
   (c7_in_pit_update carPit 0.1 1 sample_track rfl).2 (by norm_num [carPit, car_new])⟩
theorem gap_entry_lap (a c : Car) :
    (gap_entry a c).timing.current_lap = c.timing.current_lap := by
  simp only [gap_entry]
  split <;> rfl

theorem gap_entry_track_t (a c : Car) : (gap_entry a c).track_t = c.track_t := by
  simp only [gap_entry]
  split <;> rfl

theorem gap_entry_gap_to_ahead (a c : Car) :
    (gap_entry a c).timing.gap_to_ahead =
      (if c.state = CarState.DNF then FloatVal.inf else gap_value a c) := by
  simp only [gap_entry]
  split <;> simp_all

theorem gap_entry_gap_to_leader (a c : Car) :
    (gap_entry a c).timing.gap_to_leader =
      (if c.state = CarState.DNF then FloatVal.inf else gap_value a c) := by
  simp only [gap_entry]
  split <;> simp_all

theorem gap_value_congr (a b c : Car)
    (hl : a.timing.current_lap = b.timing.current_lap)
    (ht : a.track_t = b.track_t) : gap_value a c = gap_value b c := by
  simp only [gap_value, hl, ht]

theorem gap_scan_spec : ∀ (l : List (ℕ × Car)) (ahead : Car) (k : ℕ),
    k < l.length →
    ((gap_scan ahead l).getD k default_entry).2.timing.gap_to_ahead =
      (if (l.getD k default_entry).2.state = CarState.DNF then FloatVal.inf
       else gap_value (if k = 0 then ahead else (l.getD (k - 1) default_entry).2)
         (l.getD k default_entry).2) ∧
    ((gap_scan ahead l).getD k default_entry).2.timing.gap_to_leader =
      (if (l.getD k default_entry).2.state = CarState.DNF then FloatVal.inf
       else gap_value (if k = 0 then ahead else (l.getD (k - 1) default_entry).2)
         (l.getD k default_entry).2)
  | [], ahead, k, hk => by simp at hk
  | (i, c) :: rest, ahead, 0, _ => by
    simp only [gap_scan, List.getD_cons_zero, if_pos rfl]
    exact ⟨gap_entry_gap_to_ahead ahead c, gap_entry_gap_to_leader ahead c⟩
  | (i, c) :: rest, ahead, k + 1, hk => by
    have hk' : k < rest.length := by simpa using hk
    have ih := gap_scan_spec rest (gap_entry ahead c) k hk'
    simp only [gap_scan, List.getD_cons_succ, Nat.add_sub_cancel]
    cases k with
    | zero =>
      rw [ih.1, ih.2]
      norm_num
      rw [gap_value_congr (gap_entry ahead c) c _ (gap_entry_lap ahead c)
        (gap_entry_track_t ahead c)]
    | succ m =>
      rw [ih.1, ih.2]
      simp [Nat.add_sub_cancel]
theorem gap_scan_length : ∀ (l : List (ℕ × Car)) (a : Car),
    (gap_scan a l).length = l.length
  | [], _ => rfl
  | (i, c) :: rest, a => by
    simp only [gap_scan, List.length_cons, gap_scan_length rest]

/-- C8, amended: after the standings recomputation, the sorted-first car
always gets `gap_to_leader = 0` (even if it is DNF); every later entry
that is DNF gets infinite `gap_to_leader` and `gap_to_ahead`; every
later non-DNF entry gets `gap_to_ahead` equal to `gap_value` against
the car immediately ahead in sorted order (wrapped track difference
times 90 when tied on laps, lap difference times 90 otherwise) and
`gap_to_leader` equal to `gap_to_ahead` (the non-cumulative
approximation). -/
theorem c8_gap_rules (r : Race) :
    (0 < r.sorted_standings.length →
      (r.sorted_standings.getD 0 default_entry).2.timing.gap_to_leader =
        FloatVal.fin 0) ∧
    (∀ k : ℕ, 0 < k → k < r.sorted_standings.length →
      (r.sorted_standings.getD k default_entry).2.timing.gap_to_ahead =
        (if ((assign_positions (sort_cars r.cars.enum)).getD k
            default_entry).2.state = CarState.DNF
         then FloatVal.inf
         else gap_value
           ((assign_positions (sort_cars r.cars.enum)).getD (k - 1) default_entry).2
           ((assign_positions (sort_cars r.cars.enum)).getD k default_entry).2) ∧
      (r.sorted_standings.getD k default_entry).2.timing.gap_to_leader =
        (r.sorted_standings.getD k default_entry).2.timing.gap_to_ahead) := by
  unfold Race.sorted_standings
  generalize assign_positions (sort_cars r.cars.enum) = s
  cases s with
  | nil =>
    constructor
    · intro h
      simp [assign_gaps] at h
    · intro k hk hklen
      simp [assign_gaps] at hklen
  | cons p rest =>
    obtain ⟨i, leader⟩ := p
    constructor
    · intro _
      simp [assign_gaps]
    · intro k hk hklen
      obtain ⟨m, rfl⟩ : ∃ m, k = m + 1 := ⟨k - 1, by omega⟩
      have hlen : m < rest.length := by
        simp only [assign_gaps, List.length_cons, gap_scan_length] at hklen
        omega
      have hspec := gap_scan_spec rest
        { leader with timing := { leader.timing with gap_to_leader := FloatVal.fin 0 } }
        m hlen
      simp only [assign_gaps, List.getD_cons_succ, Nat.add_sub_cancel]
      rw [hspec.1, hspec.2]
      cases m with
      | zero =>
        norm_num
        rw [gap_value_congr
          { leader with timing := { leader.timing with gap_to_leader := FloatVal.fin 0 } }
          leader _ rfl rfl]
      | succ n =>
        simp
/-- C8 witness: the amended gap rules applied at a concrete two-car race
(sorted leader at index 0, the RACING car at index 1). -/
theorem c8_gap_rules_witness :
    (raceC1.sorted_standings.getD 0 default_entry).2.timing.gap_to_leader =
      FloatVal.fin 0 ∧
    ((raceC1.sorted_standings.getD 1 default_entry).2.timing.gap_to_ahead =
      (if ((assign_positions (sort_cars raceC1.cars.enum)).getD 1
          default_entry).2.state = CarState.DNF
       then FloatVal.inf
       else gap_value
         ((assign_positions (sort_cars raceC1.cars.enum)).getD 0 default_entry).2
         ((assign_positions (sort_cars raceC1.cars.enum)).getD 1 default_entry).2) ∧
     (raceC1.sorted_standings.getD 1 default_entry).2.timing.gap_to_leader =
       (raceC1.sorted_standings.getD 1 default_entry).2.timing.gap_to_ahead) := by
  have hlen : raceC1.sorted_standings.length = 2 := by
    norm_num +decide [Race.sorted_standings, sort_cars, insert_car, race_key,
      key_lt, assign_positions, assign_positions_from, assign_gaps, gap_scan,
      gap_entry, gap_value, raceC1, race_fix, carDnfA, carRacB, car_new,
      default_timing, default_telemetry, sample_track, List.enum, List.enumFrom,
      default_car]
  exact ⟨(c8_gap_rules raceC1).1 (by omega),
    (c8_gap_rules raceC1).2 1 (by omega) (by omega)⟩
theorem check_collisions_non_racing (cars : List Car) (rng : ℕ → ℚ) (k i : ℕ)
    (hK : (cars.getD i default_car).state ≠ CarState.RACING) :
    (check_collisions cars rng k).1.length = cars.length ∧
    (check_collisions cars rng k).1.getD i default_car = cars.getD i default_car := by
  unfold check_collisions
  refine foldl_inv (P := fun s : List Car × ℕ => s.1.length = cars.length ∧
    s.1.getD i default_car = cars.getD i default_car)
    (List.range cars.length) (cars, k) ⟨rfl, rfl⟩ ?_
  intro s m _ hs
  by_cases him : m = i
  · subst him
    rw [if_neg]
    · exact hs
    · rw [hs.2]; exact hK
  · split
    · refine foldl_inv (P := fun s : List Car × ℕ => s.1.length = cars.length ∧
        s.1.getD i default_car = cars.getD i default_car) _ s hs ?_
      intro t j _ ht
      simp only [collide_step]
      by_cases hji : j = i
      · subst hji
        rw [if_neg]
        · exact ht
        · rw [ht.2]; exact hK
      · split
        · split
          · refine ⟨by simpa using ht.1, ?_⟩
            rw [list_getD_set_ne default_car _ _ j i hji,
              list_getD_set_ne default_car _ _ m i him]
            exact ht.2
          · exact ht
        · exact ht
    · exact hs
theorem check_collisions_far (cars : List Car) (rng : ℕ → ℚ) (k i : ℕ)
    (hK : ∀ j, j < cars.length → j ≠ i →
      ¬ wrapped_dist (cars.getD i default_car) (cars.getD j default_car) < 0.003) :
    (check_collisions cars rng k).1.length = cars.length ∧
    (∀ m, ((check_collisions cars rng k).1.getD m default_car).track_t =
      (cars.getD m default_car).track_t) ∧
    (check_collisions cars rng k).1.getD i default_car = cars.getD i default_car := by
  unfold check_collisions
  refine foldl_inv (P := fun s : List Car × ℕ => s.1.length = cars.length ∧
      (∀ m, (s.1.getD m default_car).track_t = (cars.getD m default_car).track_t) ∧
      s.1.getD i default_car = cars.getD i default_car)
    (List.range cars.length) (cars, k) ⟨rfl, fun _ => rfl, rfl⟩ ?_
  intro s m hm hs
  have hmlen : m < cars.length := List.mem_range.mp hm
  split
  · refine foldl_inv (P := fun s : List Car × ℕ => s.1.length = cars.length ∧
      (∀ m', (s.1.getD m' default_car).track_t = (cars.getD m' default_car).track_t) ∧
      s.1.getD i default_car = cars.getD i default_car) _ s hs ?_
    intro t j hj ht
    have hjr : m + 1 ≤ j ∧ j < s.1.length := by
      rcases List.mem_range'.mp hj with ⟨i0, hi0, rfl⟩
      omega
    have hjlen : j < cars.length := by rw [← hs.1]; exact hjr.2
    have hmj : m ≠ j := by omega
    simp only [collide_step]
    split
    · have hdist : wrapped_dist (t.1.getD m default_car) (t.1.getD j default_car) =
          wrapped_dist (cars.getD m default_car) (cars.getD j default_car) :=
        wrapped_dist_congr _ _ _ _ (ht.2.1 m) (ht.2.1 j)
      split
      · rename_i hlt
        rw [hdist] at hlt
        by_cases hmi : m = i
        · subst hmi
          exact absurd hlt (hK j hjlen (by omega))
        · by_cases hji : j = i
          · subst hji
            rw [wrapped_dist_comm] at hlt
            exact absurd hlt (hK m hmlen hmi)
          · refine ⟨by simpa using ht.1, ?_, ?_⟩
            · intro m'
              by_cases hm'j : m' = j
              · subst hm'j
                rw [list_getD_set_self default_car _ _ m'
                    (by rw [List.length_set, ht.1]; exact hjlen),
                  apply_damage_track_t]
                exact ht.2.1 m'
              · rw [list_getD_set_ne default_car _ _ j m' (fun h => hm'j h.symm)]
                by_cases hm'm : m' = m
                · subst hm'm
                  rw [list_getD_set_self default_car _ _ m' (by rw [ht.1]; exact hmlen),
                    apply_damage_track_t]
                  exact ht.2.1 m'
                · rw [list_getD_set_ne default_car _ _ m m' (fun h => hm'm h.symm)]
                  exact ht.2.1 m'
            · rw [list_getD_set_ne default_car _ _ j i hji,
                list_getD_set_ne default_car _ _ m i hmi]
              exact ht.2.2
      · exact ht
    · exact ht
  · exact hs
theorem check_collisions_pair (c1 c2 : Car) (rng : ℕ → ℚ) (k : ℕ)
    (h1 : c1.state = CarState.RACING) (h2 : c2.state = CarState.RACING)
    (h3 : wrapped_dist c1 c2 < 0.003) :
    check_collisions [c1, c2] rng k =
      ([c1.apply_damage (rng k), c2.apply_damage (rng k)], k + 1) := by
  unfold check_collisions
  rw [show List.range ([c1, c2]).length = [0, 1] from rfl]
  simp only [List.foldl_cons, List.foldl_nil]
  rw [if_pos (show (([c1, c2] : List Car).getD 0 default_car).state =
    CarState.RACING from h1)]
  rw [show (([c1, c2] : List Car).length - (0 + 1)) = 1 from rfl]
  rw [show List.range' (0 + 1) 1 = [1] from rfl]
  simp only [List.foldl_cons, List.foldl_nil, collide_step]
  rw [if_pos (show (([c1, c2] : List Car).getD 1 default_car).state =
    CarState.RACING from h2)]
  rw [if_pos (show wrapped_dist (([c1, c2] : List Car).getD 0 default_car)
    (([c1, c2] : List Car).getD 1 default_car) < 0.003 from h3)]
  rw [show (([c1, c2] : List Car).set 0 ((([c1, c2] : List Car).getD 0
      default_car).apply_damage (rng k))).set 1
      ((([c1, c2] : List Car).getD 1 default_car).apply_damage (rng k)) =
    [c1.apply_damage (rng k), c2.apply_damage (rng k)] from rfl]
  split <;> rfl
theorem check_collisions_all_far (cars : List Car) (rng : ℕ → ℚ) (k : ℕ)
    (hK : ∀ i j, i < cars.length → j < cars.length → i ≠ j →
      ¬ wrapped_dist (cars.getD i default_car) (cars.getD j default_car) < 0.003) :
    check_collisions cars rng k = (cars, k) := by
  unfold check_collisions
  refine foldl_inv (P := fun s : List Car × ℕ => s = (cars, k))
    (List.range cars.length) (cars, k) rfl ?_
  intro s m hm hs
  subst hs
  have hmlen : m < cars.length := List.mem_range.mp hm
  split
  · refine foldl_inv (P := fun s : List Car × ℕ => s = (cars, k)) _ _ rfl ?_
    intro t j hj ht
    subst ht
    have hjlen : m + 1 ≤ j ∧ j < cars.length := by
      rcases List.mem_range'.mp hj with ⟨i0, hi0, rfl⟩
      have hi0' : i0 < cars.length - (m + 1) := hi0
      omega
    simp only [collide_step]
    split
    · split
      · rename_i hdist
        exact absurd hdist (hK m j hmlen hjlen.2 (by omega))
      · rfl
    · rfl
  · rfl

/-- C9, amended: the collision scan damages only cars that are RACING
when their pair is examined — a car not RACING at scan start is never
damaged; a car beyond the 0.003 wrapped-track-distance threshold from
every other car is untouched, and when every pair is beyond the
threshold the whole scan is the identity and consumes no rng draw; and
for an isolated pair of RACING cars within the threshold one rng draw
(from uniform(1,5), hence ≥ 1) is applied to both cars via
`apply_damage`, strictly increasing each car's damage while it is below
the 100 cap.  Because `car1`'s RACING check happens only at outer-loop
entry, a car forced to DNF mid-scan has its remaining pairs skipped, so
not every close pair that was RACING at tick start receives damage. -/
theorem c9_collision_rules :
    (∀ (cars : List Car) (rng : ℕ → ℚ) (k i : ℕ),
      (cars.getD i default_car).state ≠ CarState.RACING →
      (check_collisions cars rng k).1.getD i default_car = cars.getD i default_car) ∧
    (∀ (cars : List Car) (rng : ℕ → ℚ) (k i : ℕ),
      (∀ j, j < cars.length → j ≠ i →
        ¬ wrapped_dist (cars.getD i default_car) (cars.getD j default_car) < 0.003) →
      (check_collisions cars rng k).1.getD i default_car = cars.getD i default_car) ∧
    (∀ (c1 c2 : Car) (rng : ℕ → ℚ) (k : ℕ),
      c1.state = CarState.RACING → c2.state = CarState.RACING →
      wrapped_dist c1 c2 < 0.003 → 1 ≤ rng k →
      check_collisions [c1, c2] rng k =
        ([c1.apply_damage (rng k), c2.apply_damage (rng k)], k + 1) ∧
      (c1.damage < 100 → c1.damage < (c1.apply_damage (rng k)).damage) ∧
      (c2.damage < 100 → c2.damage < (c2.apply_damage (rng k)).damage)) ∧
    (∀ (cars : List Car) (rng : ℕ → ℚ) (k : ℕ),
      (∀ i j, i < cars.length → j < cars.length → i ≠ j →
        ¬ wrapped_dist (cars.getD i default_car) (cars.getD j default_car) < 0.003) →
      check_collisions cars rng k = (cars, k)) := by
  refine ⟨fun cars rng k i h => (check_collisions_non_racing cars rng k i h).2,
    fun cars rng k i h => (check_collisions_far cars rng k i h).2.2,
    fun c1 c2 rng k h1 h2 h3 h4 =>
      ⟨check_collisions_pair c1 c2 rng k h1 h2 h3, ?_, ?_⟩,
    fun cars rng k h => check_collisions_all_far cars rng k h⟩
  · intro hd
    show c1.damage < min 100 (c1.damage + rng k)
    exact lt_min hd (by linarith)
  · intro hd
    show c2.damage < min 100 (c2.damage + rng k)
    exact lt_min hd (by linarith)

/-- C9 witness: the four collision rules applied at concrete inputs — a
lone DNF car, the far-apart pair (per-car and whole-scan), and the
colliding pair at distance 0.0005. -/
theorem c9_collision_rules_witness :
    (check_collisions [carDnfA] rngC 0).1.getD 0 default_car =
      ([carDnfA] : List Car).getD 0 default_car ∧
    (check_collisions [carDnfA, carRacB] rngC 0).1.getD 0 default_car =
      ([carDnfA, carRacB] : List Car).getD 0 default_car ∧
    (check_collisions [carP, carQ] rngC 0 =
      ([carP.apply_damage (rngC 0), carQ.apply_damage (rngC 0)], 0 + 1) ∧
     (carP.damage < 100 → carP.damage < (carP.apply_damage (rngC 0)).damage) ∧
     (carQ.damage < 100 → carQ.damage < (carQ.apply_damage (rngC 0)).damage)) ∧
    check_collisions [carDnfA, carRacB] rngC 5 = ([carDnfA, carRacB], 5) :=
  ⟨c9_collision_rules.1 [carDnfA] rngC 0 0 (by simp [carDnfA, car_new]),
   c9_collision_rules.2.1 [carDnfA, carRacB] rngC 0 0 (by
      intro j hj hj0
      have hj1 : j = 1 := by
        simp only [List.length_cons, List.length_nil] at hj
        omega
      subst hj1
      norm_num [wrapped_dist, carDnfA, carRacB, car_new, abs_of_nonneg]),
   c9_collision_rules.2.2.1 carP carQ rngC 0
     (by norm_num [carP, car_new]) (by norm_num [carQ, car_new])
     (by norm_num [wrapped_dist, carP, carQ, car_new, abs_of_nonneg])
     (by norm_num [rngC]),
   c9_collision_rules.2.2.2 [carDnfA, carRacB] rngC 5 (by
      intro i j hi hj hij
      simp only [List.length_cons, List.length_nil] at hi hj
      have hcases : (i = 0 ∧ j = 1) ∨ (i = 1 ∧ j = 0) := by omega
      rcases hcases with ⟨rfl, rfl⟩ | ⟨rfl, rfl⟩ <;>
        norm_num [wrapped_dist, carDnfA, carRacB, car_new, abs_of_nonneg,
          abs_of_nonpos])⟩
/-- C9 counterexample: three cars, all RACING at tick start; `carL` and
`carM` are within the 0.003 threshold of each other, but `carL` is
pushed to 100 damage (DNF) by its earlier collision with `carK`, so the
outer loop skips `carL`'s inner loop and the close pair (`carL`,
`carM`) receives no damage — `carM` is completely untouched in that
tick, refuting "a nonzero randomized damage amount is applied to both
cars" for every close tick-start-RACING pair. -/
theorem c9_counterexample :
    carK.state = CarState.RACING ∧ carL.state = CarState.RACING ∧
    carM.state = CarState.RACING ∧
    wrapped_dist carL carM < 0.003 ∧
    carM.damage = 0 ∧
    (check_collisions [carK, carL, carM] rngC 0).1.getD 2 default_car = carM ∧
    ((check_collisions [carK, carL, carM] rngC 0).1.getD 1 default_car).state =
      CarState.DNF := by
  refine ⟨rfl, rfl, rfl, ?_, rfl, ?_, ?_⟩
  · norm_num [wrapped_dist, carL, carM, car_new, abs_of_nonneg, abs_of_nonpos]
  all_goals
    norm_num +decide [check_collisions, collide_step, wrapped_dist,
      Car.apply_damage, carK, carL, carM, car_new, rngC, default_car,
      default_telemetry, default_timing, List.range_succ, List.range',
      List.foldl_append, List.foldl_cons, List.foldl_nil, List.set,
      abs_of_nonneg, abs_of_nonpos]
